import Mathlib

/-!
# Verification of the lorebook access-control and symlink-enforcement core

Shallow embedding of the access-control layer of the "ST-- Lorebook
Protection Symlink" extension:

* the server-side plugin (`checkLorebookPermission`, the `/create-symlink`,
  `/check-access` and `/grant-access` endpoints, and the cross-platform
  `createSymlink` helper), and
* the client-side extension (`verifyLorebookAccess`, `grantPermission`,
  `revokePermission`, `logAccessAttempt`).

JavaScript objects become Lean structures; the mutable maps
(`settings['lorebook_acl']`, `permissionData`) become functions
`String → Option _` updated by explicit state passing; filesystem state is a
function from paths (segment lists) to optional entries; `path.join`'s
segment normalization (`.`/`..` handling) is modelled explicitly.
-/

namespace Lorebook

/-! ## Paths

A path is a list of segments.  `path.join` concatenates its arguments with
`/` and normalizes the result, resolving `.` and `..` segments. -/

/-- A filesystem path, as its list of segments (relative to the process
working directory; the data root `./data` is the path `["data"]`). -/
abbrev Path := List String

/-- Split a string on `/` into raw segments (auxiliary character recursion). -/
def splitSegs : List Char → List Char → List String
  | [], acc => [String.mk acc.reverse]
  | c :: rest, acc =>
    if c = '/' then String.mk acc.reverse :: splitSegs rest []
    else splitSegs rest (c :: acc)

/-- Split a path string on `/`. -/
def splitPath (s : String) : List String :=
  splitSegs s.data []

/-- One step of path normalization: empty and `.` segments vanish, `..` pops
the last segment (a no-op at the root), anything else is appended.  This is
the normalization `path.join` applies. -/
def normStep (acc : Path) (seg : String) : Path :=
  if seg = "" ∨ seg = "." then acc
  else if seg = ".." then acc.dropLast
  else acc ++ [seg]

/-- `pjoin base parts` models `path.join(base, ...parts)`: each part is split
on `/` and the segments are folded into the (already normalized) base. -/
def pjoin (base : Path) (parts : List String) : Path :=
  (parts.flatMap splitPath).foldl normStep base

/-- `descends root p`: `p` lies inside the directory tree rooted at `root`
(i.e. `root` is a prefix of `p`'s segments). -/
def descends (root p : Path) : Bool :=
  root.isPrefixOf p

/-! ## Server-side ACL state (part_003)

`settings['lorebook_acl']` maps a lorebook name to its ACL entry. -/

/-- An ACL entry, as registered by the `/create-symlink` endpoint:
`{ creator, allowedUsers, originalPath, targetLorebook }` (the timestamp and
the constant `isSymlink: true` flag carry no information for the claims). -/
structure Acl where
  creator : String
  allowedUsers : List String
  originalPath : Path := []
  targetLorebook : String := ""
  deriving Repr, DecidableEq

/-- The `lorebook_acl` map of the extension settings. -/
abbrev AclMap := String → Option Acl

/-- Point update of an `AclMap`. -/
def AclMap.set (m : AclMap) (name : String) (acl : Acl) : AclMap :=
  fun n => if n = name then some acl else m n

@[simp] theorem aclMap_set_same (m : AclMap) (name : String) (acl : Acl) :
    m.set name acl name = some acl := by
  simp [AclMap.set]

/-- `checkLorebookPermission(lorebookName, userHandle, isAdmin)` from the
server plugin: with no ACL registered for the name the check returns `true`
("No ACL defined, allow access"); otherwise admin, then creator, then the
allowed-users list. -/
def checkLorebookPermission (settings : AclMap) (lorebookName userHandle : String)
    (isAdmin : Bool) : Bool :=
  match settings lorebookName with
  | none => true
  | some acl =>
    if isAdmin then true
    else if acl.creator = userHandle then true
    else acl.allowedUsers.contains userHandle

/-! ## The `/check-access` endpoint -/

/-- The JSON body returned by `/check-access`:
`{ permitted, acl: acl || null, userHandle, isAdmin }`. -/
structure CheckAccessResponse where
  permitted : Bool
  acl : Option Acl
  userHandle : String
  isAdmin : Bool
  deriving Repr, DecidableEq

/-- The `/check-access` handler: computes `permitted` via
`checkLorebookPermission` and returns it together with the raw ACL entry
(or `null`), the handle and the admin flag. -/
def checkAccessEndpoint (settings : AclMap) (lorebookName userHandle : String)
    (isAdmin : Bool) : CheckAccessResponse :=
  { permitted := checkLorebookPermission settings lorebookName userHandle isAdmin
    acl := settings lorebookName
    userHandle := userHandle
    isAdmin := isAdmin }

/-! ## The `/grant-access` endpoint -/

/-- Outcome of `/grant-access`: 404 when the name has no ACL entry, 403 when
the requester is neither admin nor the creator, 200 otherwise. -/
inductive GrantOutcome where
  | notFound
  | permissionDenied
  | ok
  deriving Repr, DecidableEq

/-- The `/grant-access` handler: looks up the ACL; only admin or the creator
may grant; the target user is pushed onto `allowedUsers` only when not
already present.  Returns the outcome and the new ACL map. -/
def grantAccessEndpoint (settings : AclMap) (lorebookName targetUser userHandle : String)
    (isAdmin : Bool) : GrantOutcome × AclMap :=
  match settings lorebookName with
  | none => (.notFound, settings)
  | some acl =>
    if ¬ isAdmin ∧ acl.creator ≠ userHandle then
      (.permissionDenied, settings)
    else if acl.allowedUsers.contains targetUser then
      (.ok, settings)
    else
      (.ok, settings.set lorebookName { acl with allowedUsers := acl.allowedUsers ++ [targetUser] })

/-! ## Filesystem model and `createSymlink`

The filesystem is a partial map from paths to entries.  `createSymlink`
(Unix branch) does `lstat`; an existing *symlink* at the link path is
unlinked; `fs.symlink` then fails with `EEXIST` if anything still exists at
the link path, else creates the link. -/

/-- A filesystem entry: regular file, directory, or symbolic link with its
stored target. -/
inductive Entry where
  | file
  | dir
  | symlink (target : Path)
  deriving Repr, DecidableEq

/-- Filesystem state: what (if anything) exists at each path. -/
abbrev Fs := Path → Option Entry

/-- Point update of the filesystem. -/
def Fs.set (fs : Fs) (p : Path) (e : Option Entry) : Fs :=
  fun q => if q = p then e else fs q

/-- `createSymlink(target, linkPath)`: if `lstat` finds a symbolic link at
`linkPath` it is unlinked first (`ENOENT` is tolerated); then
`fs.symlink(target, linkPath)` creates the link, failing with `EEXIST` when a
non-link entry still occupies `linkPath`.  Returns the error (if any) and
the resulting filesystem. -/
def createSymlink (fs : Fs) (target linkPath : Path) : Option String × Fs :=
  match fs linkPath with
  | some (.symlink _) =>
    -- existing symlink removed, then the new link is created
    (none, (fs.set linkPath none).set linkPath (some (.symlink target)))
  | some .file => (some "EEXIST", fs)
  | some .dir => (some "EEXIST", fs)
  | none => (none, fs.set linkPath (some (.symlink target)))

/-! ## The `/create-symlink` endpoint

The handler validates the body fields, requires an admin requester, joins
the shared-lorebook path and the per-user link path, checks that the source
exists (`fs.access`), creates the user's worlds directory, creates the
symlink and registers an ACL entry for the link name. -/

/-- A `/create-symlink` request body plus the requesting user (from
`req.user`). -/
structure SymlinkRequest where
  targetLorebook : String
  linkName : String
  targetUser : String
  userHandle : String
  isAdmin : Bool
  deriving Repr, DecidableEq

/-- The HTTP outcome of `/create-symlink`: 400 on a missing field, 403 for a
non-admin, 404 when the source lorebook does not exist, 200 with the created
link path on success. -/
inductive SymlinkResponse where
  | missingFields
  | notAdmin
  | sourceNotFound
  | serverError (msg : String)
  | success (path : Path)
  deriving Repr, DecidableEq

/-- A filesystem action the endpoint performs, in order. -/
inductive FsAction where
  | mkdir (p : Path)
  | unlink (p : Path)
  | symlink (target link : Path)
  deriving Repr, DecidableEq

/-- The `/create-symlink` handler.  `dataRoot` is the (normalized) data
root.  Returns the HTTP outcome, the ordered list of filesystem actions the
handler performed, and the updated ACL map.  The `createSymlink` helper's
unlink-then-link behaviour shows up as the optional `unlink` action. -/
def createSymlinkEndpoint (dataRoot : Path) (fs : Fs) (settings : AclMap)
    (req : SymlinkRequest) : SymlinkResponse × List FsAction × AclMap :=
  if req.targetLorebook = "" ∨ req.linkName = "" ∨ req.targetUser = "" then
    (.missingFields, [], settings)
  else if ¬ req.isAdmin then
    (.notAdmin, [], settings)
  else
    let sharedLorebook := pjoin dataRoot ["shared", "worlds", req.targetLorebook]
    let targetUserWorldsDir := pjoin dataRoot ["users", req.targetUser, "worlds"]
    let symlinkPath := pjoin targetUserWorldsDir [req.linkName]
    if fs sharedLorebook = none then
      (.sourceNotFound, [], settings)
    else
      let acl : Acl :=
        { creator := req.userHandle
          allowedUsers := [req.targetUser]
          originalPath := sharedLorebook
          targetLorebook := req.targetLorebook }
      match fs symlinkPath with
      | some .file | some .dir =>
        -- createSymlink throws EEXIST (non-link entry not removed); the
        -- router's catch turns it into a 500 and the ACL is not registered
        (.serverError "EEXIST", [.mkdir targetUserWorldsDir], settings)
      | some (.symlink _) =>
        (.success symlinkPath,
         [.mkdir targetUserWorldsDir, .unlink symlinkPath,
          .symlink sharedLorebook symlinkPath],
         settings.set req.linkName acl)
      | none =>
        (.success symlinkPath,
         [.mkdir targetUserWorldsDir, .symlink sharedLorebook symlinkPath],
         settings.set req.linkName acl)

/-! ## Client-side extension state (index.js)

The extension keeps module-level mutable state (`extensionSettings`,
`permissionData`, `isAdmin`, `currentUserId`) and the host's character list;
here they form an explicit environment record. -/

/-- A SillyTavern character as the permission code reads it: its `name`,
`data.creator`, `data.extensions[MODULE_NAME].owner` and
`data.extensions.character_id`. -/
structure Character where
  name : String
  creator : Option String
  extOwner : Option String
  charId : Option String
  deriving Repr, DecidableEq

/-- A `permissionData[characterId]` record: `owner`, `allowedUsers`, and the
optional per-user `permissions` map. -/
structure Permissions where
  owner : Option String
  allowedUsers : List String
  permMap : List (String × String)
  deriving Repr, DecidableEq

/-- The `permissionData` store. -/
abbrev PermMap := String → Option Permissions

/-- Point update of `permissionData`. -/
def PermMap.set (m : PermMap) (id : String) (p : Permissions) : PermMap :=
  fun k => if k = id then some p else m k

@[simp] theorem permMap_set_same (m : PermMap) (id : String) (p : Permissions) :
    m.set id p id = some p := by
  simp [PermMap.set]

/-- The module-level state of the extension plus the relevant
`extensionSettings` flags. -/
structure ClientEnv where
  isAdmin : Bool
  currentUserId : String
  characters : List Character
  permissionData : PermMap
  enforcePermissions : Bool
  logAccessAttempts : Bool
  adminOverrideEnabled : Bool

/-- Decimal digit value of a character, if it is one. -/
def decDigit? (c : Char) : Option Nat :=
  if 48 ≤ c.toNat ∧ c.toNat ≤ 57 then some (c.toNat - 48) else none

/-- Parse a non-empty all-digit character list as a decimal number. -/
def parseIndex : List Char → Nat → Option Nat
  | [], acc => some acc
  | c :: cs, acc =>
    match decDigit? c with
    | some d => parseIndex cs (acc * 10 + d)
    | none => none

/-- The numeric value of an id string when it is a decimal numeral (the case
in which JavaScript array indexing by the string hits an element). -/
def strIndex? (s : String) : Option Nat :=
  match s.data with
  | [] => none
  | cs => parseIndex cs 0

/-- `getCharacterById(characterId)`: array indexing
`context.characters?.[characterId]` (effective only for a numeric id string)
with a fallback search on `data.extensions.character_id`. -/
def getCharacterById (chars : List Character) (characterId : String) : Option Character :=
  match strIndex? characterId with
  | some i =>
    match chars.get? i with
    | some c => some c
    | none => chars.find? (fun c => c.charId == some characterId)
  | none => chars.find? (fun c => c.charId == some characterId)

/-- `isCharacterOwner(characterId, userId)`: the user is the character's
`creator` or its extension-recorded `owner`. -/
def isCharacterOwner (chars : List Character) (characterId userId : String) : Bool :=
  match getCharacterById chars characterId with
  | some c => c.creator == some userId || c.extOwner == some userId
  | none => false

/-- `hasExplicitPermission(characterId, userId)`: member of the record's
`allowedUsers`, or mapped to `'read'` in its `permissions` map (`{}` when no
record exists, so both checks fail). -/
def hasExplicitPermission (pd : PermMap) (characterId userId : String) : Bool :=
  match pd characterId with
  | some p => p.allowedUsers.contains userId || p.permMap.lookup userId == some "read"
  | none => false

/-- `verifyLorebookAccess({characterId, userId})`: admin override (only when
`adminOverrideEnabled`), then ownership, then explicit permission; the
subject defaults to `currentUserId` when the event carries no `userId`. -/
def verifyLorebookAccess (env : ClientEnv) (characterId : String)
    (userId : Option String) : Bool :=
  if env.isAdmin && env.adminOverrideEnabled then true
  else
    let uid := userId.getD env.currentUserId
    if isCharacterOwner env.characters characterId uid then true
    else hasExplicitPermission env.permissionData characterId uid

/-- `getCharacterByNameOrId(nameOrId)`: first character matching by `name`
or by `data.extensions.character_id` (string-compared). -/
def getCharacterByNameOrId (chars : List Character) (nameOrId : String) : Option Character :=
  chars.find? (fun c => c.name == nameOrId || c.charId == some nameOrId)

/-- `character.data.extensions?.character_id || characterId` (an empty id
string is falsy). -/
def actualIdOf (c : Character) (characterId : String) : String :=
  match c.charId with
  | some s => if s = "" then characterId else s
  | none => characterId

/-- `grantPermission(userId, characterId)` slash command: admins only; the
character must resolve; a missing `permissionData` record is created with
`{allowedUsers: [], owner: currentUserId}`; the user is pushed when absent.
Returns the message and the new `permissionData`. -/
def grantPermission (env : ClientEnv) (userId characterId : String) :
    String × PermMap :=
  if ¬ env.isAdmin then ("Administrator access required", env.permissionData)
  else
    match getCharacterByNameOrId env.characters characterId with
    | none => ("Character not found: " ++ characterId, env.permissionData)
    | some c =>
      let actualId := actualIdOf c characterId
      let p := (env.permissionData actualId).getD
        { owner := some env.currentUserId, allowedUsers := [], permMap := [] }
      if p.allowedUsers.contains userId then
        ("User " ++ userId ++ " already has permission for " ++ c.name,
         env.permissionData)
      else
        ("Permission granted to " ++ userId ++ " for " ++ c.name,
         env.permissionData.set actualId
           { p with allowedUsers := p.allowedUsers ++ [userId] })

/-- `revokePermission(userId, characterId)` slash command: admins only; when
the record's `allowedUsers` contains the user it is filtered out, otherwise
nothing changes. -/
def revokePermission (env : ClientEnv) (userId characterId : String) :
    String × PermMap :=
  if ¬ env.isAdmin then ("Administrator access required", env.permissionData)
  else
    match getCharacterByNameOrId env.characters characterId with
    | none => ("Character not found: " ++ characterId, env.permissionData)
    | some c =>
      match env.permissionData (actualIdOf c characterId) with
      | some p =>
        if p.allowedUsers.contains userId then
          ("Permission revoked from " ++ userId ++ " for " ++ c.name,
           env.permissionData.set (actualIdOf c characterId)
             { p with allowedUsers := p.allowedUsers.filter (fun u => u != userId) })
        else
          ("User " ++ userId ++ " does not have permission for " ++ c.name,
           env.permissionData)
      | none =>
        ("User " ++ userId ++ " does not have permission for " ++ c.name,
         env.permissionData)

/-- `checkPermission(characterId)` slash command: reports "Character not
found" for an unknown character, else the allow/deny outcome for the current
user. -/
def checkPermission (env : ClientEnv) (characterId : String) : String :=
  match getCharacterByNameOrId env.characters characterId with
  | none => "Character not found: " ++ characterId
  | some c =>
    let actualId := actualIdOf c characterId
    if verifyLorebookAccess env actualId (some env.currentUserId) then
      "Access to " ++ c.name ++ ": Allowed"
    else
      "Access to " ++ c.name ++ ": Denied"

/-! ## Audit logging (index.js) -/

/-- One access-log entry (timestamp and user agent omitted: they carry no
information for the claims). -/
structure LogEntry where
  userId : String
  characterId : String
  hasAccess : Bool
  deriving Repr, DecidableEq

/-- `logAccessAttempt`: push the entry, then `splice` away the oldest
entries so that at most 1000 remain. -/
def logAccessAttempt (entry : LogEntry) (logs : List LogEntry) : List LogEntry :=
  let pushed := logs ++ [entry]
  if pushed.length > 1000 then pushed.drop (pushed.length - 1000) else pushed

/-- The log entry `handleLorebookAccess` builds for an event
`{characterId, userId}`. -/
def accessLogEntry (env : ClientEnv) (characterId : String)
    (userId : Option String) : LogEntry :=
  { userId := userId.getD env.currentUserId
    characterId := characterId
    hasAccess := verifyLorebookAccess env characterId userId }

/-- The audit-log effect of `handleLorebookAccess`: nothing when
`enforcePermissions` is off; otherwise one `logAccessAttempt` call, but only
when `logAccessAttempts` is on. -/
def handleLorebookAccessLog (env : ClientEnv) (characterId : String)
    (userId : Option String) (logs : List LogEntry) : List LogEntry :=
  if ¬ env.enforcePermissions then logs
  else if env.logAccessAttempts then
    logAccessAttempt (accessLogEntry env characterId userId) logs
  else logs

/-! ## Link validation (modelled from the spec)

The API reference documents a symlink validator (`validateSymlink`), but its
implementation is not among the source files; only the specification
describes its behaviour. -/

/-- Resolve a stored symlink target: normalize its segments (resolving `.`
and `..`), as `path.resolve` would for an absolute target. -/
def resolvePath (p : Path) : Path :=
  p.foldl normStep []

/-- Modelled from the spec: the result of `validateLink` — the
implementation of the validator is absent from the sources (the API
reference only documents its signature).  Outcomes follow §4.2:
`NotASymlink`, `DanglingTarget`, `TargetOutsideRoot`, or success with the
resolved target.  `LinkMissing` is this model's outcome for a link path at
which nothing exists (a case the spec does not address). -/
inductive ValidationResult where
  | LinkMissing
  | NotASymlink
  | DanglingTarget
  | TargetOutsideRoot
  | Valid (target : Path)
  deriving Repr, DecidableEq

/-- Modelled from the spec: `validateLink(linkPath)` — absent from the
sources.  Per §4.2: "fails with `NotASymlink` if the path exists but is not
a symbolic link; resolves the link target; fails with `DanglingTarget` if
the target does not exist; fails with `TargetOutsideRoot` if the resolved
target escapes the canonical storage root; otherwise succeeds with the
resolved target." -/
def validateLink (root : Path) (fs : Fs) (linkPath : Path) : ValidationResult :=
  match fs linkPath with
  | none => .LinkMissing
  | some .file => .NotASymlink
  | some .dir => .NotASymlink
  | some (.symlink t) =>
    let resolved := resolvePath t
    if fs resolved = none then .DanglingTarget
    else if descends root resolved then .Valid resolved
    else .TargetOutsideRoot

/-! ## Concrete scenarios used as counterexamples and witnesses -/

/-- An ACL map with no entry at all. -/
def emptyAcl : AclMap := fun _ => none

/-- An ACL map protecting `"L.json"`, created by `alice`, empty allow-list. -/
def aclOwnedByAlice : AclMap :=
  fun n => if n = "L.json" then some { creator := "alice", allowedUsers := [] } else none

/-- The same map except the creator is `carol`. -/
def aclOwnedByCarol : AclMap :=
  fun n => if n = "L.json" then some { creator := "carol", allowedUsers := [] } else none

/-! ## C1: access checks on unregistered resources -/

/-- C1, counterexample.  The claim says an access check on a resourceId with
no registered ACL entry always denies (fail-closed).  In
`checkLorebookPermission`, a lorebook with no ACL entry is allowed to
everyone ("No ACL defined, allow access"): a non-admin stranger is permitted
on an unknown resource. -/
theorem c1_counterexample :
    checkLorebookPermission emptyAcl "unknown-book" "mallory" false = true := rfl

/-- C1, amended: an access check on a resourceId with no registered ACL
entry *allows* for every subject, admin or not — unprotected lorebooks are
open, and fail-closed behaviour applies only to registered resources. -/
theorem c1_unregistered_resource_allows (settings : AclMap) (name u : String)
    (a : Bool) (h : settings name = none) :
    checkLorebookPermission settings name u a = true := by
  simp [checkLorebookPermission, h]

/-- C1 witness: the amended statement at a concrete unregistered name. -/
theorem c1_unregistered_resource_allows_witness :
    checkLorebookPermission emptyAcl "no-such-book" "bob" false = true :=
  c1_unregistered_resource_allows emptyAcl "no-such-book" "bob" false rfl

/-! ## C3: what a denied `/check-access` response reveals -/

/-- C3, counterexample.  The claim says two runs differing only in
owner/allow-list data produce the same denied response.  `/check-access`
returns the raw ACL entry (`acl: acl || null`) to every requester: `bob` is
denied in both runs, yet the responses differ because they carry the
creator's identity. -/
theorem c3_counterexample :
    (checkAccessEndpoint aclOwnedByAlice "L.json" "bob" false).permitted = false ∧
    (checkAccessEndpoint aclOwnedByCarol "L.json" "bob" false).permitted = false ∧
    checkAccessEndpoint aclOwnedByAlice "L.json" "bob" false ≠
      checkAccessEndpoint aclOwnedByCarol "L.json" "bob" false := by
  refine ⟨rfl, rfl, ?_⟩
  decide

/-- C3, amended: the `/check-access` response reveals the stored ACL entry —
whenever two states disagree on the entry for the queried name (owner or
allow-list), the responses disagree as well, whoever asks and whatever the
decision is. -/
theorem c3_response_reveals_acl (m₁ m₂ : AclMap) (name u : String) (a : Bool)
    (h : m₁ name ≠ m₂ name) :
    checkAccessEndpoint m₁ name u a ≠ checkAccessEndpoint m₂ name u a := by
  intro he
  exact h (congrArg CheckAccessResponse.acl he)

/-- C3 witness: the amended statement at the alice/carol pair of states. -/
theorem c3_response_reveals_acl_witness :
    checkAccessEndpoint aclOwnedByAlice "L.json" "bob" false ≠
      checkAccessEndpoint aclOwnedByCarol "L.json" "bob" false :=
  c3_response_reveals_acl aclOwnedByAlice aclOwnedByCarol "L.json" "bob" false
    (by decide)

/-! ## C2: symlink targets and the storage root -/

/-- A filesystem holding one regular file at `data/secret.json` — outside
the shared-worlds storage root `data/shared/worlds`. -/
def fsWithSecret : Fs :=
  fun p => if p = ["data", "secret.json"] then some .file else none

/-- An admin request whose resource name traverses out of the storage root
with `../`. -/
def traversalRequest : SymlinkRequest :=
  { targetLorebook := "../../secret.json"
    linkName := "leak.json"
    targetUser := "bob"
    userHandle := "root"
    isAdmin := true }

/-- C2, counterexample.  The claim says a computed target escaping the
storage root is rejected with `InvalidTarget` and no link is created.  The
handler performs no containment check: the traversal name
`../../secret.json` joins to `data/secret.json`, which exists, so the
request succeeds and a symlink to a target outside `data/shared/worlds` is
created in bob's worlds directory. -/
theorem c2_counterexample :
    (createSymlinkEndpoint ["data"] fsWithSecret emptyAcl traversalRequest).1 =
      .success ["data", "users", "bob", "worlds", "leak.json"] ∧
    FsAction.symlink ["data", "secret.json"] ["data", "users", "bob", "worlds", "leak.json"] ∈
      (createSymlinkEndpoint ["data"] fsWithSecret emptyAcl traversalRequest).2.1 ∧
    descends ["data", "shared", "worlds"] ["data", "secret.json"] = false := by
  decide

/-- C2, amended: `/create-symlink` never checks the computed target against
the storage root.  For any admin request with non-empty fields it succeeds
whenever the joined source path exists (and nothing blocks the link path),
creating a symlink to that path with no containment condition; the only
target-related rejection is the 404 existence check. -/
theorem c2_no_containment_check (dataRoot : Path) (fs : Fs) (settings : AclMap)
    (req : SymlinkRequest)
    (h1 : req.targetLorebook ≠ "") (h2 : req.linkName ≠ "") (h3 : req.targetUser ≠ "")
    (h4 : req.isAdmin = true)
    (h5 : fs (pjoin dataRoot ["shared", "worlds", req.targetLorebook]) ≠ none)
    (h6 : fs (pjoin (pjoin dataRoot ["users", req.targetUser, "worlds"]) [req.linkName]) = none) :
    (createSymlinkEndpoint dataRoot fs settings req).1 =
      .success (pjoin (pjoin dataRoot ["users", req.targetUser, "worlds"]) [req.linkName]) ∧
    FsAction.symlink (pjoin dataRoot ["shared", "worlds", req.targetLorebook])
        (pjoin (pjoin dataRoot ["users", req.targetUser, "worlds"]) [req.linkName]) ∈
      (createSymlinkEndpoint dataRoot fs settings req).2.1 := by
  simp [createSymlinkEndpoint, h1, h2, h3, h4, h5, h6]

/-- C2 witness: the amended statement at the traversal scenario. -/
theorem c2_no_containment_check_witness :
    (createSymlinkEndpoint ["data"] fsWithSecret emptyAcl traversalRequest).1 =
      .success (pjoin (pjoin ["data"] ["users", "bob", "worlds"]) ["leak.json"]) ∧
    FsAction.symlink (pjoin ["data"] ["shared", "worlds", "../../secret.json"])
        (pjoin (pjoin ["data"] ["users", "bob", "worlds"]) ["leak.json"]) ∈
      (createSymlinkEndpoint ["data"] fsWithSecret emptyAcl traversalRequest).2.1 :=
  c2_no_containment_check ["data"] fsWithSecret emptyAcl traversalRequest
    (by decide) (by decide) (by decide) rfl (by decide) (by decide)

/-! ## C4: admin override -/

/-- A character `Luna` with id `R1`, created by `alice`. -/
def charLuna : Character :=
  { name := "Luna", creator := some "alice", extOwner := none, charId := some "R1" }

/-- Permission data for `R1`: owned by `alice`, empty allow-list. -/
def pdR1 : PermMap :=
  fun id => if id = "R1" then
    some { owner := some "alice", allowedUsers := [], permMap := [] }
  else none

/-- The client environment of an admin (`root`) with the admin override
setting turned off. -/
def envAdminNoOverride : ClientEnv :=
  { isAdmin := true
    currentUserId := "root"
    characters := [charLuna]
    permissionData := pdR1
    enforcePermissions := true
    logAccessAttempts := true
    adminOverrideEnabled := false }

/-- C4, counterexample.  The claim says an admin is allowed on every
resource regardless of any other configuration.  In `verifyLorebookAccess`
the admin branch also requires `adminOverrideEnabled`; with that setting off
the admin `root` is denied on `R1` (not owner, not allow-listed). -/
theorem c4_counterexample :
    verifyLorebookAccess envAdminNoOverride "R1" (some "root") = false := by
  decide

/-- C4, amended: the server-side `checkLorebookPermission` always allows an
admin, on registered and unregistered names alike; the client-side
`verifyLorebookAccess` allows an admin on every resource only when the
`adminOverrideEnabled` setting is on. -/
theorem c4_admin_override :
    (∀ (settings : AclMap) (name u : String),
      checkLorebookPermission settings name u true = true) ∧
    (∀ (env : ClientEnv) (cid : String) (uid : Option String),
      env.isAdmin = true → env.adminOverrideEnabled = true →
      verifyLorebookAccess env cid uid = true) := by
  constructor
  · intro settings name u
    cases h : settings name <;> simp [checkLorebookPermission, h]
  · intro env cid uid ha ho
    simp [verifyLorebookAccess, ha, ho]

/-- C4 witness: both amended parts at concrete inputs (an admin with the
override setting on, and the server check for an admin on a registered
name). -/
theorem c4_admin_override_witness :
    checkLorebookPermission aclOwnedByAlice "L.json" "root" true = true ∧
    verifyLorebookAccess { envAdminNoOverride with adminOverrideEnabled := true }
      "R1" (some "root") = true :=
  ⟨c4_admin_override.1 aclOwnedByAlice "L.json" "root",
   c4_admin_override.2 { envAdminNoOverride with adminOverrideEnabled := true }
     "R1" (some "root") rfl rfl⟩

/-! ## C5: who can grant -/

/-- The client environment of `alice`: not an admin, owner (creator) of
`R1`. -/
def envAliceOwner : ClientEnv :=
  { isAdmin := false
    currentUserId := "alice"
    characters := [charLuna]
    permissionData := pdR1
    enforcePermissions := true
    logAccessAttempts := true
    adminOverrideEnabled := true }

/-- C5, counterexample.  The claim says a non-admin owner can successfully
grant.  The client's own access check allows `alice` on `R1` (owner), yet
`grantPermission` rejects her with "Administrator access required" and
leaves the permission data untouched — the slash command is admin-only. -/
theorem c5_counterexample :
    verifyLorebookAccess envAliceOwner "R1" (some "alice") = true ∧
    grantPermission envAliceOwner "bob" "R1" =
      ("Administrator access required", envAliceOwner.permissionData) := by
  exact ⟨by decide, rfl⟩

/-- C5, amended: grant authorization is split.  The server's
`/grant-access` succeeds exactly when the name has an ACL entry and the
actor is an admin or the entry's creator (so a non-admin creator *can* grant
there); the client's `grantPermission` slash command refuses every non-admin
actor, owner or not. -/
theorem c5_grant_authorization :
    (∀ (settings : AclMap) (name target user : String) (admin : Bool),
      (grantAccessEndpoint settings name target user admin).1 = .ok ↔
        ∃ acl, settings name = some acl ∧ (admin = true ∨ acl.creator = user)) ∧
    (∀ (env : ClientEnv) (u c : String), env.isAdmin = false →
      grantPermission env u c = ("Administrator access required", env.permissionData)) := by
  constructor
  · intro settings name target user admin
    cases h : settings name with
    | none => simp [grantAccessEndpoint, h]
    | some acl =>
      by_cases hauth : ¬ admin = true ∧ acl.creator ≠ user
      · simp only [grantAccessEndpoint, h, if_pos hauth]
        simp [hauth.1, hauth.2]
      · push_neg at hauth
        by_cases hadm : admin = true
        · by_cases hmem : target ∈ acl.allowedUsers <;>
            simp [grantAccessEndpoint, h, hadm, hmem]
        · have hcr : acl.creator = user := hauth (by simpa using hadm)
          by_cases hmem : target ∈ acl.allowedUsers <;>
            simp [grantAccessEndpoint, h, hadm, hcr, hmem]
  · intro env u c h
    simp [grantPermission, h]

/-- C5 witness: the non-admin creator `alice` can grant through
`/grant-access` (the iff at a concrete state), and the admin-only refusal of
`grantPermission` at alice's environment. -/
theorem c5_grant_authorization_witness :
    ((grantAccessEndpoint aclOwnedByAlice "L.json" "bob" "alice" false).1 = .ok ↔
      ∃ acl, aclOwnedByAlice "L.json" = some acl ∧
        (false = true ∨ acl.creator = "alice")) ∧
    grantPermission envAliceOwner "bob" "R1" =
      ("Administrator access required", envAliceOwner.permissionData) :=
  ⟨c5_grant_authorization.1 aclOwnedByAlice "L.json" "bob" "alice" false,
   c5_grant_authorization.2 envAliceOwner "bob" "R1" rfl⟩

/-! ## C6: grant and revoke are idempotent -/

/-- Auxiliary: repeating `/grant-access` changes nothing the second time. -/
theorem grantAccessEndpoint_idem (settings : AclMap) (name target user : String)
    (admin : Bool) :
    (grantAccessEndpoint (grantAccessEndpoint settings name target user admin).2
        name target user admin).2
      = (grantAccessEndpoint settings name target user admin).2 := by
  cases h : settings name with
  | none => simp [grantAccessEndpoint, h]
  | some acl =>
    by_cases hadm : admin = true
    · by_cases hmem : target ∈ acl.allowedUsers
      · simp [grantAccessEndpoint, h, hadm, hmem]
      · have hs : (grantAccessEndpoint settings name target user admin).2
            = settings.set name { acl with allowedUsers := acl.allowedUsers ++ [target] } := by
          simp [grantAccessEndpoint, h, hadm, hmem]
        rw [hs]
        simp [grantAccessEndpoint, aclMap_set_same, hadm]
    · have hadm' : admin = false := by simpa using hadm
      by_cases hcr : acl.creator = user
      · by_cases hmem : target ∈ acl.allowedUsers
        · simp [grantAccessEndpoint, h, hadm', hcr, hmem]
        · have hs : (grantAccessEndpoint settings name target user admin).2
              = settings.set name { acl with allowedUsers := acl.allowedUsers ++ [target] } := by
            simp [grantAccessEndpoint, h, hadm', hcr, hmem]
          rw [hs]
          simp [grantAccessEndpoint, aclMap_set_same, hadm', hcr]
      · simp [grantAccessEndpoint, h, hadm', hcr]

/-- Auxiliary: repeating the `grantPermission` slash command changes nothing
the second time. -/
theorem grantPermission_idem (env : ClientEnv) (u c : String) :
    (grantPermission { env with permissionData := (grantPermission env u c).2 } u c).2
      = (grantPermission env u c).2 := by
  by_cases ha : env.isAdmin
  · cases hc : getCharacterByNameOrId env.characters c with
    | none => simp [grantPermission, ha, hc]
    | some ch =>
      by_cases hmem : u ∈ ((env.permissionData (actualIdOf ch c)).getD
          { owner := some env.currentUserId, allowedUsers := [], permMap := [] }).allowedUsers
      · simp [grantPermission, ha, hc, hmem]
      · have hs : (grantPermission env u c).2
            = env.permissionData.set (actualIdOf ch c)
                { (env.permissionData (actualIdOf ch c)).getD
                    { owner := some env.currentUserId, allowedUsers := [], permMap := [] } with
                  allowedUsers :=
                    ((env.permissionData (actualIdOf ch c)).getD
                      { owner := some env.currentUserId, allowedUsers := [],
                        permMap := [] }).allowedUsers ++ [u] } := by
          simp [grantPermission, ha, hc, hmem]
        rw [hs]
        simp [grantPermission, ha, hc, permMap_set_same]
  · simp [grantPermission, ha]

/-- Auxiliary: repeating the `revokePermission` slash command changes
nothing the second time. -/
theorem revokePermission_idem (env : ClientEnv) (u c : String) :
    (revokePermission { env with permissionData := (revokePermission env u c).2 } u c).2
      = (revokePermission env u c).2 := by
  by_cases ha : env.isAdmin
  · cases hc : getCharacterByNameOrId env.characters c with
    | none => simp [revokePermission, ha, hc]
    | some ch =>
      cases hp : env.permissionData (actualIdOf ch c) with
      | none => simp [revokePermission, ha, hc, hp]
      | some p =>
        by_cases hmem : u ∈ p.allowedUsers
        · have hs : (revokePermission env u c).2
              = env.permissionData.set (actualIdOf ch c)
                  { p with allowedUsers := p.allowedUsers.filter (fun x => x != u) } := by
            simp [revokePermission, ha, hc, hp, hmem]
          rw [hs]
          have hnot : u ∉ p.allowedUsers.filter (fun x => x != u) := by
            simp [List.mem_filter]
          simp [revokePermission, ha, hc, permMap_set_same, hnot]
        · simp [revokePermission, ha, hc, hp, hmem]
  · simp [revokePermission, ha]

/-- C6 (confirmed): for every actor — authorized or not — calling grant
twice leaves the permission store in the same state as calling it once, and
likewise for revoke, in all three implementations of the operations: the
server `/grant-access` endpoint and the client `grantPermission` and
`revokePermission` slash commands (already-present and already-absent are
no-ops, not errors). -/
theorem c6_grant_revoke_idempotent :
    (∀ (settings : AclMap) (name target user : String) (admin : Bool),
      (grantAccessEndpoint (grantAccessEndpoint settings name target user admin).2
          name target user admin).2
        = (grantAccessEndpoint settings name target user admin).2) ∧
    (∀ (env : ClientEnv) (u c : String),
      (grantPermission { env with permissionData := (grantPermission env u c).2 } u c).2
        = (grantPermission env u c).2) ∧
    (∀ (env : ClientEnv) (u c : String),
      (revokePermission { env with permissionData := (revokePermission env u c).2 } u c).2
        = (revokePermission env u c).2) :=
  ⟨grantAccessEndpoint_idem, grantPermission_idem, revokePermission_idem⟩

/-! ## C7: the audit log -/

/-- Alice's environment with access logging turned off. -/
def envLogOff : ClientEnv :=
  { envAliceOwner with logAccessAttempts := false }

/-- An old audit entry (a past allow for `alice` on `R1`). -/
def oldEntry : LogEntry :=
  { userId := "alice", characterId := "R1", hasAccess := true }

/-- C7, counterexample.  The claim says every access check emits exactly one
audit event and past entries are never removed.  Both parts fail: with
`logAccessAttempts` off a handled access attempt emits no event at all, and
`logAccessAttempt` caps the log at 1000 entries, splicing away the oldest
one once the cap is exceeded (here the log shrinks from 1000 past entries to
999 of them plus the new one). -/
theorem c7_counterexample :
    handleLorebookAccessLog envLogOff "R1" (some "bob") [] = [] ∧
    logAccessAttempt (accessLogEntry envLogOff "R1" (some "bob"))
        (List.replicate 1000 oldEntry)
      = List.replicate 999 oldEntry ++ [accessLogEntry envLogOff "R1" (some "bob")] := by
  constructor
  · rfl
  · have h1 : (List.replicate 1000 oldEntry ++
        [accessLogEntry envLogOff "R1" (some "bob")]).length = 1001 := by
      rw [List.length_append, List.length_replicate, List.length_singleton]
    simp only [logAccessAttempt, h1]
    norm_num

/-- C7, amended: when enforcement and access logging are both enabled, a
handled access attempt below the 1000-entry cap appends exactly one audit
entry at the end and leaves every past entry in place; in every case the
resulting log is a suffix of the old log with the one new entry at its end
(so the only mutation ever applied to past entries is splicing away the
oldest) and its length is capped at `min (n + 1) 1000`. -/
theorem c7_audit_append (env : ClientEnv) (cid : String) (uid : Option String)
    (logs : List LogEntry)
    (henf : env.enforcePermissions = true) (hlog : env.logAccessAttempts = true) :
    (logs.length < 1000 →
      handleLorebookAccessLog env cid uid logs = logs ++ [accessLogEntry env cid uid]) ∧
    handleLorebookAccessLog env cid uid logs <:+ logs ++ [accessLogEntry env cid uid] ∧
    (handleLorebookAccessLog env cid uid logs).length = min (logs.length + 1) 1000 := by
  have hmain : handleLorebookAccessLog env cid uid logs
      = logAccessAttempt (accessLogEntry env cid uid) logs := by
    simp [handleLorebookAccessLog, henf, hlog]
  rw [hmain]
  simp only [logAccessAttempt]
  by_cases hbig : (logs ++ [accessLogEntry env cid uid]).length > 1000
  · rw [if_pos hbig]
    have hlen : (logs ++ [accessLogEntry env cid uid]).length = logs.length + 1 := by
      simp
    refine ⟨?_, ?_, ?_⟩
    · intro hsmall
      rw [hlen] at hbig
      exact absurd hbig (by omega)
    · exact List.drop_suffix _ _
    · rw [List.length_drop, hlen]
      rw [hlen] at hbig
      omega
  · rw [if_neg hbig]
    have hlen : (logs ++ [accessLogEntry env cid uid]).length = logs.length + 1 := by
      simp
    refine ⟨fun _ => rfl, List.suffix_refl _, ?_⟩
    rw [hlen]
    rw [hlen] at hbig
    omega

/-- C7 witness: the amended statement at alice's environment (logging on)
with a one-entry log: one entry is appended at the end. -/
theorem c7_audit_append_witness :
    handleLorebookAccessLog envAliceOwner "R1" (some "bob") [oldEntry]
      = [oldEntry, accessLogEntry envAliceOwner "R1" (some "bob")] :=
  (c7_audit_append envAliceOwner "R1" (some "bob") [oldEntry] rfl rfl).1 (by norm_num)

/-! ## C8: denial performs no filesystem action -/

/-- C8 (confirmed): when the access gate of `/create-symlink` denies (the
requester is not an admin), the handler answers 403 before touching the
filesystem: no directory is created, nothing is unlinked, no symlink is
made, and the ACL map is unchanged. -/
theorem c8_denied_no_fs_action (dataRoot : Path) (fs : Fs) (settings : AclMap)
    (req : SymlinkRequest)
    (h1 : req.targetLorebook ≠ "") (h2 : req.linkName ≠ "") (h3 : req.targetUser ≠ "")
    (h4 : req.isAdmin = false) :
    createSymlinkEndpoint dataRoot fs settings req = (.notAdmin, [], settings) := by
  simp [createSymlinkEndpoint, h1, h2, h3, h4]

/-- C8 witness: bob (not an admin) asks for a link to an existing shared
lorebook; the handler performs no filesystem action. -/
theorem c8_denied_no_fs_action_witness :
    createSymlinkEndpoint ["data"] fsWithSecret emptyAcl
        { targetLorebook := "book.json", linkName := "book.json",
          targetUser := "bob", userHandle := "bob", isAdmin := false }
      = (.notAdmin, [], emptyAcl) :=
  c8_denied_no_fs_action ["data"] fsWithSecret emptyAcl
    { targetLorebook := "book.json", linkName := "book.json",
      targetUser := "bob", userHandle := "bob", isAdmin := false }
    (by decide) (by decide) (by decide) rfl

/-! ## C9: `validateLink` outcomes -/

/-- C9 (confirmed against the spec-modelled validator): `validateLink`
returns `NotASymlink` when the path holds a non-link entry, `DanglingTarget`
when the link's resolved target does not exist, `TargetOutsideRoot` when the
existing resolved target is not under the storage root, and the resolved
target on success. -/
theorem c9_validateLink_cases (root : Path) (fs : Fs) (linkPath : Path) :
    (∀ e, fs linkPath = some e → (∀ t, e ≠ .symlink t) →
      validateLink root fs linkPath = .NotASymlink) ∧
    (∀ t, fs linkPath = some (.symlink t) → fs (resolvePath t) = none →
      validateLink root fs linkPath = .DanglingTarget) ∧
    (∀ t e, fs linkPath = some (.symlink t) → fs (resolvePath t) = some e →
      descends root (resolvePath t) = false →
      validateLink root fs linkPath = .TargetOutsideRoot) ∧
    (∀ t e, fs linkPath = some (.symlink t) → fs (resolvePath t) = some e →
      descends root (resolvePath t) = true →
      validateLink root fs linkPath = .Valid (resolvePath t)) := by
  refine ⟨?_, ?_, ?_, ?_⟩
  · intro e he hne
    cases e with
    | file => simp [validateLink, he]
    | dir => simp [validateLink, he]
    | symlink t => exact absurd rfl (hne t)
  · intro t ht hdangling
    simp [validateLink, ht, hdangling]
  · intro t e ht htarget hout
    simp [validateLink, ht, htarget, hout]
  · intro t e ht htarget hin
    simp [validateLink, ht, htarget, hin]

/-- A user directory where `link.json` is a symlink whose target
`data/shared/worlds/../../../etc/secret` resolves to `/etc/secret`-like
`["etc","secret"]`, which exists but is outside the storage root; and
`dead.json` is a symlink to a deleted lorebook. -/
def fsRedirected : Fs :=
  fun p =>
    if p = ["data", "users", "bob", "worlds", "link.json"] then
      some (.symlink ["data", "shared", "worlds", "..", "..", "..", "etc", "secret"])
    else if p = ["etc", "secret"] then some .file
    else if p = ["data", "users", "bob", "worlds", "dead.json"] then
      some (.symlink ["data", "shared", "worlds", "gone.json"])
    else none

/-- C9 witness: on the concrete filesystem, the deleted-target link is
reported `DanglingTarget` and the manually redirected link is reported
`TargetOutsideRoot`. -/
theorem c9_validateLink_cases_witness :
    validateLink ["data", "shared", "worlds"] fsRedirected
        ["data", "users", "bob", "worlds", "dead.json"] = .DanglingTarget ∧
    validateLink ["data", "shared", "worlds"] fsRedirected
        ["data", "users", "bob", "worlds", "link.json"] = .TargetOutsideRoot :=
  ⟨(c9_validateLink_cases ["data", "shared", "worlds"] fsRedirected
      ["data", "users", "bob", "worlds", "dead.json"]).2.1
      ["data", "shared", "worlds", "gone.json"] (by decide) (by decide),
   (c9_validateLink_cases ["data", "shared", "worlds"] fsRedirected
      ["data", "users", "bob", "worlds", "link.json"]).2.2.1
      ["data", "shared", "worlds", "..", "..", "..", "etc", "secret"] .file
      (by decide) (by decide) (by decide)⟩

/-! ## C10: `createSymlink` never deletes a non-link entry -/

/-- C10 (confirmed): `createSymlink` removes a pre-existing entry at the
link path only when it is a symbolic link.  A regular file or directory
there is left in place and the call fails with the underlying `EEXIST`
error, the filesystem unchanged; an absent link path is tolerated and the
link is created; no other path is ever touched. -/
theorem c10_createSymlink_safety (fs : Fs) (target linkPath : Path) :
    (∀ e, fs linkPath = some e → (∀ t, e ≠ .symlink t) →
      createSymlink fs target linkPath = (some "EEXIST", fs)) ∧
    (fs linkPath = none →
      createSymlink fs target linkPath =
        (none, fs.set linkPath (some (.symlink target)))) ∧
    (∀ t, fs linkPath = some (.symlink t) →
      (createSymlink fs target linkPath).1 = none ∧
      (createSymlink fs target linkPath).2 linkPath = some (.symlink target)) ∧
    (∀ p, p ≠ linkPath → (createSymlink fs target linkPath).2 p = fs p) := by
  refine ⟨?_, ?_, ?_, ?_⟩
  · intro e he hne
    cases e with
    | file => simp [createSymlink, he]
    | dir => simp [createSymlink, he]
    | symlink t => exact absurd rfl (hne t)
  · intro he
    simp [createSymlink, he]
  · intro t ht
    simp [createSymlink, ht, Fs.set]
  · intro p hp
    cases he : fs linkPath with
    | none => simp [createSymlink, he, Fs.set, hp]
    | some e =>
      cases e with
      | file => simp [createSymlink, he]
      | dir => simp [createSymlink, he]
      | symlink t => simp [createSymlink, he, Fs.set, hp]

/-- C10 witness: with a regular file at the link path, the call fails with
`EEXIST` and the file survives; with nothing there, the link is created. -/
theorem c10_createSymlink_safety_witness :
    createSymlink fsWithSecret ["data", "shared", "worlds", "b.json"]
        ["data", "secret.json"] = (some "EEXIST", fsWithSecret) ∧
    (createSymlink fsWithSecret ["data", "shared", "worlds", "b.json"]
        ["data", "users", "bob", "worlds", "b.json"]).2
        ["data", "users", "bob", "worlds", "b.json"]
      = some (.symlink ["data", "shared", "worlds", "b.json"]) :=
  ⟨(c10_createSymlink_safety fsWithSecret ["data", "shared", "worlds", "b.json"]
      ["data", "secret.json"]).1 .file (by decide) (fun t => by simp),
   by
    rw [(c10_createSymlink_safety fsWithSecret ["data", "shared", "worlds", "b.json"]
      ["data", "users", "bob", "worlds", "b.json"]).2.1 (by decide)]
    decide⟩

end Lorebook
